import Mathlib

/-!
Shallow embedding of the qqrm/tx-bot transaction bot (Rust) and proofs about
its admission-control core.

Source files embedded:
- src/src/limits.rs   : States, LimitChecker, process_transaction, check
- src/src/utils.rs    : EnvParams declaration and read_env
- src/src/tx.rs       : Transaction trait, SomeTransaction
- src/src/tx_genertor.rs : TransactionGenerator (infinite iterator)
- src/src/main.rs     : run_transaction_process (driver)
- src/tests/tests.rs  : TestTransaction and its concrete scenarios

Machine integers: i64 is modelled as Int and usize as Nat. In the scenarios
the claims quantify over, all counter arithmetic stays far inside the i64
range (admission keeps current_amount at most total_amount, and rollback
subtracts exactly what was added), so wrap-around is not modelled.
-/

deriving instance DecidableEq for Except

/-- States from limits.rs: Finish (terminal) or InProgres with a message
(signature or error). -/
inductive States where
  | Finish : States
  | InProgres : String → States
deriving DecidableEq, Repr

/-- Environment parameters as the crate actually uses them: the fields of
the EnvParams struct constructed by tests/tests.rs, and read through
params.price in tx.rs.  Note: the struct declaration in src/src/utils.rs
omits the price field; see EnvParamsDecl and read_env below, which embed
that file literally. -/
structure EnvParams where
  wallet : String
  token : String
  total_amount : Int
  max_transactions : Nat
  commission : Int
  commission_change : Int
  max_threads : Nat
  price : Int
deriving DecidableEq, Repr

/-- A work item as seen by LimitChecker.process_transaction: the Transaction
trait exposes amount() and execute().  The field execResult records what the
single execute() call inside process_transaction returns for this item
(SomeTransaction.execute is time-dependent, so it is a parameter of the
model rather than a function of the item's data). -/
structure Tx where
  amount : Int
  execResult : Except String String
deriving Repr

/-- LimitChecker from limits.rs: two counters (AtomicUsize, AtomicI64) and
the environment parameters.  Sequential execution is modelled by passing
the whole record through process_transaction. -/
structure LimitChecker where
  transactions_count : Nat
  current_amount : Int
  params : EnvParams
deriving DecidableEq, Repr

/-- LimitChecker::new - fresh counters at zero. -/
def LimitChecker.new (params : EnvParams) : LimitChecker :=
  { transactions_count := 0, current_amount := 0, params := params }

/-- LimitChecker::check - snapshot both counters and test
transactions_count < max_transactions and
current_amount + tx_amount <= total_amount. -/
def LimitChecker.check (c : LimitChecker) (tx : Tx) : Bool :=
  decide (c.transactions_count < c.params.max_transactions) &&
    decide (c.current_amount + tx.amount ≤ c.params.total_amount)

/-- LimitChecker::process_transaction - returns Result<States, ()> and the
updated checker state.  Mirrors limits.rs line by line: the
insufficient-funds early return, the check, the optimistic fetch_add
reservation, and the fetch_sub rollback when execute() fails.
fetch_sub on the usize counter is Nat subtraction here; on the rollback
path the counter was just incremented, so no wrap can occur. -/
def LimitChecker.process_transaction (c : LimitChecker) (tx : Tx) :
    Except Unit States × LimitChecker :=
  if c.params.total_amount < tx.amount then
    (Except.ok States.Finish, c)
  else if c.check tx then
    let reserved : LimitChecker :=
      { c with transactions_count := c.transactions_count + 1,
               current_amount := c.current_amount + tx.amount }
    match tx.execResult with
    | Except.error err_mess =>
        (Except.ok (States.InProgres err_mess),
         { reserved with
             transactions_count := reserved.transactions_count - 1,
             current_amount := reserved.current_amount - tx.amount })
    | Except.ok mess => (Except.ok (States.InProgres mess), reserved)
  else
    (Except.ok States.Finish, c)

/-- Sequential run of process_transaction over a list of items, returning
the final checker state. -/
def runTxs (c : LimitChecker) : List Tx → LimitChecker
  | [] => c
  | tx :: rest => runTxs (c.process_transaction tx).2 rest

/-- The checker states observed after each completed process_transaction
call of a sequential run. -/
def traceStates (c : LimitChecker) : List Tx → List LimitChecker
  | [] => []
  | tx :: rest =>
      (c.process_transaction tx).2 :: traceStates (c.process_transaction tx).2 rest

/-- An item is admitted when the insufficient-funds early return does not
fire and check passes (the condition under which limits.rs reserves
capacity). -/
def admitted (c : LimitChecker) (tx : Tx) : Bool :=
  !(decide (c.params.total_amount < tx.amount)) && c.check tx

/-- Whether the item's execute() call returned Ok. -/
def txSucceeded (tx : Tx) : Bool :=
  match tx.execResult with
  | Except.ok _ => true
  | Except.error _ => false

/-- The items of a sequential run that were admitted and whose execution
succeeded (the ones whose reservation stays committed). -/
def committedTxs (c : LimitChecker) : List Tx → List Tx
  | [] => []
  | tx :: rest =>
      if admitted c tx && txSucceeded tx then
        tx :: committedTxs (c.process_transaction tx).2 rest
      else
        committedTxs (c.process_transaction tx).2 rest

/-- Sum of the amounts of a list of items. -/
def sumAmounts (txs : List Tx) : Int :=
  (txs.map Tx.amount).sum

/-- SomeTransaction from tx.rs: wallet, token, adjusted_commission, price. -/
structure SomeTransaction where
  wallet : String
  token : String
  adjusted_commission : Int
  price : Int
deriving DecidableEq, Repr

/-- SomeTransaction::amount - price plus adjusted commission. -/
def SomeTransaction.amount (t : SomeTransaction) : Int :=
  t.adjusted_commission + t.price

/-- SomeTransaction::new - the commission is adjusted by a random jitter
drawn from the closed range [-commission_change, commission_change]; the
draw is a parameter of the model. -/
def SomeTransaction.new (p : EnvParams) (jitter : Int) : SomeTransaction :=
  { wallet := p.wallet, token := p.token,
    adjusted_commission := p.commission + jitter, price := p.price }

/-- TransactionGenerator::next from tx_genertor.rs: always constructs one
fresh transaction from the parameters and returns Some of it - the iterator
never yields None. -/
def TransactionGenerator.next (p : EnvParams) (jitter : Int) :
    Option SomeTransaction :=
  some (SomeTransaction.new p jitter)

/-- TestTransaction::new_stable_min from tests/tests.rs: the deterministic
item whose commission sits at the bottom of the jitter range. -/
def TestTransaction.new_stable_min (p : EnvParams) : SomeTransaction :=
  { wallet := p.wallet, token := p.token,
    adjusted_commission := p.commission - p.commission_change,
    price := p.price }

/-- The worker loop inside run_transaction_process (main.rs): map_while
over the infinite generator, keeping each Ok state other than Finish and
stopping at the first Finish (or Err).  The item stream txs abstracts the
generator's successive draws; fuel bounds the number of pulls examined,
with none meaning the loop did not finish within the given fuel. -/
def workerLoop (txs : Nat → Tx) :
    Nat → LimitChecker → Nat → Option (List States)
  | 0, _, _ => none
  | fuel + 1, c, i =>
    match c.process_transaction (txs i) with
    | (Except.ok st, c1) =>
        if st = States.Finish then some []
        else
          match workerLoop txs fuel c1 (i + 1) with
          | some rest => some (st :: rest)
          | none => none
    | (Except.error _, _) => some []

/-- Model of run_transaction_process (main.rs): a thread pool with
max_threads threads is built, but a single closure is passed to
pool.install; that closure runs one map_while loop over one generator
cursor, then locks the shared results vector and extends it once with its
local results.  The model returns the shared collection as the list of
batches appended to it: exactly one batch, the single worker loop's local
results. -/
def run_transaction_process (p : EnvParams) (txs : Nat → Tx) (fuel : Nat) :
    List (List States) :=
  [(workerLoop txs fuel (LimitChecker.new p) 0).getD []]

/-- The seven fields of the EnvParams struct exactly as declared in
src/src/utils.rs (which omits the price field used by tx.rs and by the
EnvParams literals in tests/tests.rs). -/
structure EnvParamsDecl where
  wallet : String
  token : String
  total_amount : Int
  max_transactions : Nat
  commission : Int
  commission_change : Int
  max_threads : Nat
deriving DecidableEq, Repr

/-- Value of a decimal digit character, none for any other character. -/
def digitVal (ch : Char) : Option Nat :=
  if '0' ≤ ch ∧ ch ≤ '9' then some (ch.toNat - Char.toNat '0') else none

/-- Accumulate decimal digits left to right; none on a non-digit. -/
def parseNatAux : List Char → Nat → Option Nat
  | [], acc => some acc
  | ch :: rest, acc =>
    match digitVal ch with
    | some d => parseNatAux rest (acc * 10 + d)
    | none => none

/-- A nonempty all-digit sequence read as a Nat (none otherwise). -/
def parseNatDigits : List Char → Option Nat
  | [] => none
  | ch :: rest => parseNatAux (ch :: rest) 0

/-- Rust's str::parse::<i64>: an optional sign followed by at least one
digit, with the value within the i64 range. -/
def parseI64 (s : String) : Option Int :=
  let signAndDigits : Int × List Char :=
    match s.data with
    | '-' :: rest => (-1, rest)
    | '+' :: rest => (1, rest)
    | cs => (1, cs)
  match parseNatDigits signAndDigits.2 with
  | some n =>
    let v : Int := signAndDigits.1 * n
    if -(2 ^ 63) ≤ v ∧ v < 2 ^ 63 then some v else none
  | none => none

/-- Rust's str::parse::<usize> on a 64-bit target: an optional plus sign
followed by at least one digit, with the value within the u64 range. -/
def parseUsize (s : String) : Option Nat :=
  let ds : List Char :=
    match s.data with
    | '+' :: rest => rest
    | cs => cs
  match parseNatDigits ds with
  | some n => if n < 2 ^ 64 then some n else none
  | none => none

/-- The get_env! macro from utils.rs: fetch the variable, panicking with
"NAME not set" when absent and "NAME should be a TYPE" when it fails to
parse.  A panic is modelled as Except.error carrying the panic message. -/
def get_env (env : String → Option String) (name typeName : String)
    (parse : String → Option α) : Except String α :=
  match env name with
  | none => Except.error (name ++ " not set")
  | some raw =>
    match parse raw with
    | some v => Except.ok v
    | none => Except.error (name ++ " should be a " ++ typeName)

/-- EnvParams::read_env from utils.rs, reading the variables in source
order.  numCpus stands for num_cpus::get(); max_threads is the minimum of
it and MAX_THREADS.  The result is the seven-field struct utils.rs
declares: no base-cost (PRICE) variable is read anywhere. -/
def read_env (numCpus : Nat) (env : String → Option String) :
    Except String EnvParamsDecl := do
  let wallet ← get_env env "WALLET" "String" some
  let token ← get_env env "TOKEN" "String" some
  let total_amount ← get_env env "TOTAL_AMOUNT" "i64" parseI64
  let commission ← get_env env "COMMISSION" "i64" parseI64
  let commission_change ← get_env env "COMMISSION_CHANGE" "i64" parseI64
  let max_transactions ← get_env env "MAX_TRANSACTIONS" "usize" parseUsize
  let max_threads_env ← get_env env "MAX_THREADS" "usize" parseUsize
  Except.ok
    { wallet := wallet, token := token, total_amount := total_amount,
      max_transactions := max_transactions, commission := commission,
      commission_change := commission_change,
      max_threads := min numCpus max_threads_env }

/-- Parameters of test_successful_transaction in tests/tests.rs (scenario B):
totalAmount 211, commission 100 with jitter bound 10, price 100. -/
def testParamsB : EnvParams :=
  { wallet := "test_wallet", token := "test_token", total_amount := 211,
    max_transactions := 100, commission := 100, commission_change := 10,
    max_threads := 1, price := 100 }

/-- Parameters of test_transaction_exceeds_limit_and_finishes in
tests/tests.rs (scenario A): the same configuration with totalAmount 189. -/
def testParamsA : EnvParams := { testParamsB with total_amount := 189 }

/-- The deterministic stable-min test item for those parameters: amount
(100 - 10) + 100 = 190, execution succeeding as TestTransaction::execute
always does. -/
def testTx : Tx :=
  { amount := (TestTransaction.new_stable_min testParamsB).amount,
    execResult := Except.ok "sig" }

/-- A zero-cost item whose execution succeeds. -/
def txZero : Tx := { amount := 0, execResult := Except.ok "m" }

/-- The scenario-B parameters with the configured thread maximum raised
to two. -/
def twoThreadParams : EnvParams := { testParamsB with max_threads := 2 }

/-- An environment assignment providing every variable read_env reads
(the values of test_read_env_correctly in utils.rs) and nothing else; in
particular no base-cost variable. -/
def fullEnvNoPrice : String → Option String := fun n =>
  if n = "WALLET" then some "TestWallet"
  else if n = "TOKEN" then some "TestToken"
  else if n = "TOTAL_AMOUNT" then some "1000"
  else if n = "COMMISSION" then some "100"
  else if n = "COMMISSION_CHANGE" then some "10"
  else if n = "MAX_TRANSACTIONS" then some "50"
  else if n = "MAX_THREADS" then some "4"
  else none

/-- The scenario-B parameters with a negative total amount, as read_env
would produce from TOTAL_AMOUNT=-1. -/
def negParams : EnvParams := { testParamsB with total_amount := -1 }

/-- An item of amount 190 whose execution fails with the message
SomeTransaction::execute produces on failure. -/
def txFail : Tx := { amount := 190, execResult := Except.error "failed tx" }

/-- The check predicate unfolded to its two comparisons. -/
theorem check_iff (c : LimitChecker) (tx : Tx) :
    c.check tx = true ↔
      (c.transactions_count < c.params.max_transactions ∧
        c.current_amount + tx.amount ≤ c.params.total_amount) := by
  simp [LimitChecker.check]

/-- Insufficient-funds branch: Terminal, state untouched. -/
theorem pt_insufficient (c : LimitChecker) (tx : Tx)
    (h : c.params.total_amount < tx.amount) :
    c.process_transaction tx = (Except.ok States.Finish, c) := by
  simp [LimitChecker.process_transaction, h]

/-- Failed admissibility check: Terminal, state untouched. -/
theorem pt_checkFalse (c : LimitChecker) (tx : Tx)
    (h1 : ¬ c.params.total_amount < tx.amount) (h2 : c.check tx = false) :
    c.process_transaction tx = (Except.ok States.Finish, c) := by
  simp [LimitChecker.process_transaction, h1, h2]

/-- Admitted item with successful execution: reservation stays committed. -/
theorem pt_execOk (c : LimitChecker) (tx : Tx) (m : String)
    (h1 : ¬ c.params.total_amount < tx.amount) (h2 : c.check tx = true)
    (h3 : tx.execResult = Except.ok m) :
    c.process_transaction tx =
      (Except.ok (States.InProgres m),
       { c with transactions_count := c.transactions_count + 1,
                current_amount := c.current_amount + tx.amount }) := by
  simp [LimitChecker.process_transaction, h1, h2, h3]

/-- Admitted item with failed execution: the rollback leaves the state
exactly as before the reservation. -/
theorem pt_execErr (c : LimitChecker) (tx : Tx) (e : String)
    (h1 : ¬ c.params.total_amount < tx.amount) (h2 : c.check tx = true)
    (h3 : tx.execResult = Except.error e) :
    c.process_transaction tx = (Except.ok (States.InProgres e), c) := by
  cases c with
  | mk n a p => simp [LimitChecker.process_transaction, h1, h2, h3]

/-- The state component is never changed unless the item is admitted and
its execution succeeds. -/
theorem pt_state_notCommitted (c : LimitChecker) (tx : Tx)
    (h : (admitted c tx && txSucceeded tx) = false) :
    (c.process_transaction tx).2 = c := by
  by_cases h1 : c.params.total_amount < tx.amount
  · rw [pt_insufficient c tx h1]
  · by_cases h2 : c.check tx = true
    · have hadm : admitted c tx = true := by
        simp [admitted, h1, h2]
      have hsucc : txSucceeded tx = false := by
        cases hb : txSucceeded tx with
        | false => rfl
        | true => simp [hadm, hb] at h
      match h3 : tx.execResult with
      | Except.error e => rw [pt_execErr c tx e h1 h2 h3]
      | Except.ok m => simp [txSucceeded, h3] at hsucc
    · rw [pt_checkFalse c tx h1 (by simpa using h2)]

/-- The state component after an admitted, successfully executed item:
both counters advanced by exactly this item. -/
theorem pt_state_committed (c : LimitChecker) (tx : Tx)
    (h : (admitted c tx && txSucceeded tx) = true) :
    (c.process_transaction tx).2 =
      { c with transactions_count := c.transactions_count + 1,
               current_amount := c.current_amount + tx.amount } := by
  have hadm : admitted c tx = true := by
    cases hb : admitted c tx with
    | true => rfl
    | false => simp [hb] at h
  have hsucc : txSucceeded tx = true := by
    cases hb : txSucceeded tx with
    | true => rfl
    | false => simp [hb] at h
  simp [admitted] at hadm
  have h1 : ¬ c.params.total_amount < tx.amount := not_lt.mpr hadm.1
  have h2 : c.check tx = true := hadm.2
  match h3 : tx.execResult with
  | Except.ok m => rw [pt_execOk c tx m h1 h2 h3]
  | Except.error e => simp [txSucceeded, h3] at hsucc

/-- Sequential accounting relative to an arbitrary start state: the final
counters are the start counters advanced by exactly the committed items. -/
theorem runTxs_accounting (txs : List Tx) (c : LimitChecker) :
    (runTxs c txs).transactions_count =
        c.transactions_count + (committedTxs c txs).length ∧
      (runTxs c txs).current_amount =
        c.current_amount + sumAmounts (committedTxs c txs) := by
  induction txs generalizing c with
  | nil => simp [runTxs, committedTxs, sumAmounts]
  | cons tx rest ih =>
    cases hc : (admitted c tx && txSucceeded tx) with
    | true =>
      have hstate := pt_state_committed c tx hc
      have := ih (c.process_transaction tx).2
      constructor
      · rw [runTxs, committedTxs, hc, this.1, hstate]
        simp [Nat.add_assoc, Nat.add_comm]
      · rw [runTxs, committedTxs, hc, this.2, hstate]
        simp [sumAmounts]
        ring
    | false =>
      have hstate := pt_state_notCommitted c tx hc
      have := ih (c.process_transaction tx).2
      constructor
      · rw [runTxs, committedTxs, hc, this.1, hstate]
        simp
      · rw [runTxs, committedTxs, hc, this.2, hstate]
        simp

/-- The params field is never modified by process_transaction. -/
theorem pt_params (c : LimitChecker) (tx : Tx) :
    (c.process_transaction tx).2.params = c.params := by
  by_cases h1 : c.params.total_amount < tx.amount
  · rw [pt_insufficient c tx h1]
  · by_cases h2 : c.check tx = true
    · match h3 : tx.execResult with
      | Except.ok m => rw [pt_execOk c tx m h1 h2 h3]
      | Except.error e => rw [pt_execErr c tx e h1 h2 h3]
    · rw [pt_checkFalse c tx h1 (by simpa using h2)]

/-- One step preserves the two budget bounds. -/
theorem pt_preserves_bounds (c : LimitChecker) (tx : Tx)
    (hcount : c.transactions_count ≤ c.params.max_transactions)
    (hamount : c.current_amount ≤ c.params.total_amount) :
    (c.process_transaction tx).2.transactions_count ≤
        (c.process_transaction tx).2.params.max_transactions ∧
      (c.process_transaction tx).2.current_amount ≤
        (c.process_transaction tx).2.params.total_amount := by
  by_cases h1 : c.params.total_amount < tx.amount
  · rw [pt_insufficient c tx h1]
    exact ⟨hcount, hamount⟩
  · by_cases h2 : c.check tx = true
    · have hchk := (check_iff c tx).mp h2
      match h3 : tx.execResult with
      | Except.ok m =>
        rw [pt_execOk c tx m h1 h2 h3]
        exact ⟨Nat.succ_le_of_lt hchk.1, hchk.2⟩
      | Except.error e =>
        rw [pt_execErr c tx e h1 h2 h3]
        exact ⟨hcount, hamount⟩
    · rw [pt_checkFalse c tx h1 (by simpa using h2)]
      exact ⟨hcount, hamount⟩

/-- Every state observed along a sequential run keeps the start state's
params and, if the start state satisfies both budget bounds, satisfies
them as well. -/
theorem traceStates_bounds (txs : List Tx) (c0 c : LimitChecker)
    (hcount : c0.transactions_count ≤ c0.params.max_transactions)
    (hamount : c0.current_amount ≤ c0.params.total_amount)
    (hmem : c ∈ traceStates c0 txs) :
    c.params = c0.params ∧
      c.transactions_count ≤ c.params.max_transactions ∧
      c.current_amount ≤ c.params.total_amount := by
  induction txs generalizing c0 with
  | nil => simp [traceStates] at hmem
  | cons tx rest ih =>
    rw [traceStates] at hmem
    have hstep := pt_preserves_bounds c0 tx hcount hamount
    have hp := pt_params c0 tx
    rcases List.mem_cons.mp hmem with heq | hmem2
    · subst heq
      exact ⟨hp, hstep.1, hstep.2⟩
    · have := ih (c0.process_transaction tx).2
        (by rw [hp] at hstep ⊢; exact hstep.1)
        (by rw [hp] at hstep ⊢; exact hstep.2) hmem2
      exact ⟨by rw [this.1, hp], this.2⟩

/-- A batch returned by the worker loop never contains the Finish state:
map_while stops at Finish instead of collecting it. -/
theorem workerLoop_no_finish (txs : Nat → Tx) (fuel : Nat)
    (c : LimitChecker) (i : Nat) (st : States)
    (hmem : st ∈ (workerLoop txs fuel c i).getD []) :
    st ≠ States.Finish := by
  induction fuel generalizing c i with
  | zero => simp [workerLoop] at hmem
  | succ fuel ih =>
    rw [workerLoop] at hmem
    match hpt : c.process_transaction (txs i) with
    | (Except.ok st1, c1) =>
      rw [hpt] at hmem
      by_cases hfin : st1 = States.Finish
      · simp [hfin] at hmem
      · simp only [hfin, if_false] at hmem
        match hrec : workerLoop txs fuel c1 (i + 1) with
        | some rest =>
          rw [hrec] at hmem
          simp at hmem
          rcases hmem with heq | hmem2
          · subst heq; exact hfin
          · exact ih c1 (i + 1) (by rw [hrec]; simpa using hmem2)
        | none =>
          rw [hrec] at hmem
          simp at hmem
    | (Except.error u, c1) =>
      rw [hpt] at hmem
      simp at hmem

/-- Claim C1 (counterexample to the claim as stated): with a negative
configured total amount, a fresh checker that rejects a zero-cost item
leaves currentAmount at 0, which exceeds totalAmount = -1 after the first
completed call. -/
theorem budget_invariant_as_stated_cex :
    ¬ ((runTxs (LimitChecker.new negParams) [txZero]).transactions_count ≤
          negParams.max_transactions ∧
        (runTxs (LimitChecker.new negParams) [txZero]).current_amount ≤
          negParams.total_amount) := by decide

/-- Claim C1 (amended): under sequential execution from a fresh
LimitChecker, provided the configured totalAmount is nonnegative, after
every completed process_transaction call transactionsCount stays at most
maxTransactions and currentAmount stays at most totalAmount. -/
theorem budget_invariant_nonneg_total (p : EnvParams) (txs : List Tx)
    (c : LimitChecker) (hp : 0 ≤ p.total_amount)
    (hmem : c ∈ traceStates (LimitChecker.new p) txs) :
    c.transactions_count ≤ p.max_transactions ∧
      c.current_amount ≤ p.total_amount := by
  have h := traceStates_bounds txs (LimitChecker.new p) c
    (by simp [LimitChecker.new]) (by simpa [LimitChecker.new] using hp) hmem
  rcases h with ⟨hparams, h1, h2⟩
  rw [hparams] at h1 h2
  exact ⟨by simpa [LimitChecker.new] using h1,
         by simpa [LimitChecker.new] using h2⟩

/-- Witness for C1 (amended) at the scenario-B configuration and the state
after one successful call. -/
theorem budget_invariant_nonneg_total_witness :
    ({ transactions_count := 1, current_amount := 190,
       params := testParamsB } : LimitChecker).transactions_count ≤
        testParamsB.max_transactions ∧
      ({ transactions_count := 1, current_amount := 190,
         params := testParamsB } : LimitChecker).current_amount ≤
        testParamsB.total_amount :=
  budget_invariant_nonneg_total testParamsB [testTx]
    { transactions_count := 1, current_amount := 190, params := testParamsB }
    (by decide) (by decide)

/-- Claim C2: process_transaction returns Terminal exactly when the total
amount is below the item's cost or the snapshot fails the admissibility
test; when admissible the call returns Continuing instead. -/
theorem terminal_outcome_characterization (c : LimitChecker) (tx : Tx) :
    ((c.process_transaction tx).1 = Except.ok States.Finish ↔
      (c.params.total_amount < tx.amount ∨
        ¬(c.transactions_count < c.params.max_transactions ∧
            c.current_amount + tx.amount ≤ c.params.total_amount))) ∧
      (¬ c.params.total_amount < tx.amount →
        c.transactions_count < c.params.max_transactions →
        c.current_amount + tx.amount ≤ c.params.total_amount →
        ∃ m, (c.process_transaction tx).1 =
          Except.ok (States.InProgres m)) := by
  constructor
  · constructor
    · intro hfin
      by_cases h1 : c.params.total_amount < tx.amount
      · exact Or.inl h1
      · by_cases h2 : c.check tx = true
        · exfalso
          match h3 : tx.execResult with
          | Except.ok m => rw [pt_execOk c tx m h1 h2 h3] at hfin; simp at hfin
          | Except.error e => rw [pt_execErr c tx e h1 h2 h3] at hfin; simp at hfin
        · exact Or.inr (by
            intro hc
            exact h2 ((check_iff c tx).mpr hc))
    · intro hcond
      by_cases h1 : c.params.total_amount < tx.amount
      · rw [pt_insufficient c tx h1]
      · have h2 : c.check tx = false := by
          rcases hcond with h | h
          · exact absurd h h1
          · cases hck : c.check tx with
            | false => rfl
            | true => exact absurd ((check_iff c tx).mp hck) h
        rw [pt_checkFalse c tx h1 h2]
  · intro h1 hcnt hamt
    have h2 : c.check tx = true := (check_iff c tx).mpr ⟨hcnt, hamt⟩
    match h3 : tx.execResult with
    | Except.ok m => exact ⟨m, by rw [pt_execOk c tx m h1 h2 h3]⟩
    | Except.error e => exact ⟨e, by rw [pt_execErr c tx e h1 h2 h3]⟩

/-- Witness for C2 at the scenario-B configuration: the admissible item is
not answered with Terminal but with Continuing. -/
theorem terminal_outcome_characterization_witness :
    ∃ m, ((LimitChecker.new testParamsB).process_transaction testTx).1 =
      Except.ok (States.InProgres m) :=
  (terminal_outcome_characterization (LimitChecker.new testParamsB) testTx).2
    (by decide) (by decide) (by decide)

/-- Claim C3: for an admitted item whose execution fails, the compensating
rollback returns both counters to exactly their pre-reservation values (as
part of the whole record) and the call returns Continuing with the failure
descriptor. -/
theorem rollback_restores_counters (c : LimitChecker) (tx : Tx) (e : String)
    (h1 : ¬ c.params.total_amount < tx.amount) (h2 : c.check tx = true)
    (h3 : tx.execResult = Except.error e) :
    c.process_transaction tx = (Except.ok (States.InProgres e), c) :=
  pt_execErr c tx e h1 h2 h3

/-- Witness for C3: a fresh scenario-B checker with an item that fails
execution ends the call exactly where it started. -/
theorem rollback_restores_counters_witness :
    (LimitChecker.new testParamsB).process_transaction txFail =
      (Except.ok (States.InProgres "failed tx"),
        LimitChecker.new testParamsB) :=
  rollback_restores_counters (LimitChecker.new testParamsB) txFail
    "failed tx" (by decide) (by decide) (by rfl)

/-- Claim C4: for an admitted item whose execution succeeds, the
reservation stays committed - the count grows by one and the amount by the
item's cost - and the call returns Continuing with the success
descriptor. -/
theorem commit_on_success (c : LimitChecker) (tx : Tx) (m : String)
    (h1 : ¬ c.params.total_amount < tx.amount) (h2 : c.check tx = true)
    (h3 : tx.execResult = Except.ok m) :
    c.process_transaction tx =
      (Except.ok (States.InProgres m),
       { c with transactions_count := c.transactions_count + 1,
                current_amount := c.current_amount + tx.amount }) :=
  pt_execOk c tx m h1 h2 h3

/-- Witness for C4, scenario B: totalAmount 211 and a cost-190 item on a
fresh checker yield Continuing and transactionsCount 1. -/
theorem commit_on_success_witness :
    (LimitChecker.new testParamsB).process_transaction testTx =
      (Except.ok (States.InProgres "sig"),
       { transactions_count := 1, current_amount := 190,
         params := testParamsB }) :=
  (commit_on_success (LimitChecker.new testParamsB) testTx "sig"
      (by decide) (by decide) (by rfl)).trans (by decide)

/-- Claim C5 (counterexample to the claim as stated): with the configured
thread maximum at two, the shared result collection still receives exactly
one appended batch, not one per worker - run_transaction_process passes a
single closure to pool.install, so only one processing loop runs. -/
theorem driver_per_worker_loops_cex :
    ¬ ((run_transaction_process twoThreadParams (fun _ => testTx) 2).length =
        twoThreadParams.max_threads) := by decide

/-- Claim C5 (amended): the driver builds the pool but submits one task:
a single worker loop over a single cursor runs, appends its local result
list to the shared collection exactly once, and that batch never contains
a Terminal state. -/
theorem driver_single_worker_append (p : EnvParams) (txs : Nat → Tx)
    (fuel : Nat) :
    (run_transaction_process p txs fuel).length = 1 ∧
      ∀ st ∈ (run_transaction_process p txs fuel).flatten,
        st ≠ States.Finish := by
  constructor
  · rfl
  · intro st hst
    rw [run_transaction_process] at hst
    simp only [List.flatten_cons, List.flatten_nil, List.append_nil] at hst
    exact workerLoop_no_finish txs fuel (LimitChecker.new p) 0 st hst

/-- Witness for C5 (amended) at a concrete two-thread configuration. -/
theorem driver_single_worker_append_witness :
    (run_transaction_process twoThreadParams (fun _ => testTx) 2).length = 1 ∧
      States.InProgres "sig" ≠ States.Finish :=
  ⟨(driver_single_worker_append twoThreadParams (fun _ => testTx) 2).1,
   (driver_single_worker_append twoThreadParams (fun _ => testTx) 2).2
     (States.InProgres "sig") (by decide)⟩

/-- Claim C6: the generator never yields an end-of-sequence, and once the
committed amount is within the next item's cost of the ceiling the worker
loop terminates at that very pull, returning its collected batch. -/
theorem generator_never_ends_and_loop_stops :
    (∀ (p : EnvParams) (jitter : Int),
        TransactionGenerator.next p jitter ≠ none) ∧
      (∀ (txs : Nat → Tx) (c : LimitChecker) (i fuel : Nat),
        c.params.total_amount < c.current_amount + (txs i).amount →
        workerLoop txs (fuel + 1) c i = some []) := by
  constructor
  · intro p jitter
    simp [TransactionGenerator.next]
  · intro txs c i fuel h
    rw [workerLoop]
    by_cases h1 : c.params.total_amount < (txs i).amount
    · rw [pt_insufficient c (txs i) h1]
      simp
    · have h2 : c.check (txs i) = false := by
        have hle : ¬ c.current_amount + (txs i).amount ≤ c.params.total_amount :=
          not_le.mpr h
        simp [LimitChecker.check, hle]
      rw [pt_checkFalse c (txs i) h1 h2]
      simp

/-- Witness for C6 at the scenario-B configuration, from a state whose
committed amount 190 is within the next item's cost of the ceiling 211. -/
theorem generator_never_ends_and_loop_stops_witness :
    TransactionGenerator.next testParamsB 0 ≠ none ∧
      workerLoop (fun _ => testTx) 1
        { transactions_count := 1, current_amount := 190,
          params := testParamsB } 5 = some [] :=
  ⟨generator_never_ends_and_loop_stops.1 testParamsB 0,
   generator_never_ends_and_loop_stops.2 (fun _ => testTx)
     { transactions_count := 1, current_amount := 190, params := testParamsB }
     5 0 (by decide)⟩

/-- Claim C7: the base-cost setting required by the spec is never read at
startup - read_env succeeds on an environment that sets every variable it
reads and no base-cost variable at all, while absence or malformed values
of the variables it does read abort with the documented messages. -/
theorem read_env_reads_no_base_cost :
    read_env 8 fullEnvNoPrice =
        Except.ok { wallet := "TestWallet", token := "TestToken",
                    total_amount := 1000, max_transactions := 50,
                    commission := 100, commission_change := 10,
                    max_threads := 4 } ∧
      read_env 8 (fun n => if n = "WALLET" then none else fullEnvNoPrice n) =
        Except.error "WALLET not set" ∧
      read_env 8 (fun n =>
          if n = "TOTAL_AMOUNT" then some "not_a_number"
          else fullEnvNoPrice n) =
        Except.error "TOTAL_AMOUNT should be a i64" :=
  ⟨by decide, by decide, by decide⟩

/-- Claim C8: process_transaction never uses the Err channel of its Result
type - every call returns Ok with either Finish or InProgres. -/
theorem attempt_never_uses_error_channel (c : LimitChecker) (tx : Tx) :
    ∃ st : States, (c.process_transaction tx).1 = Except.ok st := by
  by_cases h1 : c.params.total_amount < tx.amount
  · exact ⟨States.Finish, by rw [pt_insufficient c tx h1]⟩
  · by_cases h2 : c.check tx = true
    · match h3 : tx.execResult with
      | Except.ok m =>
        exact ⟨States.InProgres m, by rw [pt_execOk c tx m h1 h2 h3]⟩
      | Except.error e =>
        exact ⟨States.InProgres e, by rw [pt_execErr c tx e h1 h2 h3]⟩
    · exact ⟨States.Finish,
        by rw [pt_checkFalse c tx h1 (by simpa using h2)]⟩

/-- Claim C9: whenever process_transaction answers Terminal, the whole
checker state - both counters in particular - is exactly unchanged. -/
theorem terminal_leaves_state_unchanged (c : LimitChecker) (tx : Tx)
    (h : (c.process_transaction tx).1 = Except.ok States.Finish) :
    (c.process_transaction tx).2 = c := by
  by_cases h1 : c.params.total_amount < tx.amount
  · rw [pt_insufficient c tx h1]
  · by_cases h2 : c.check tx = true
    · exfalso
      match h3 : tx.execResult with
      | Except.ok m => rw [pt_execOk c tx m h1 h2 h3] at h; simp at h
      | Except.error e => rw [pt_execErr c tx e h1 h2 h3] at h; simp at h
    · rw [pt_checkFalse c tx h1 (by simpa using h2)]

/-- Witness for C9, scenario A: totalAmount 189 against a cost-190 item -
the first call returns Terminal and the counters remain at zero. -/
theorem terminal_leaves_state_unchanged_witness :
    ((LimitChecker.new testParamsA).process_transaction testTx).1 =
        Except.ok States.Finish ∧
      ((LimitChecker.new testParamsA).process_transaction testTx).2 =
        LimitChecker.new testParamsA :=
  ⟨by decide,
   terminal_leaves_state_unchanged (LimitChecker.new testParamsA) testTx
     (by decide)⟩

/-- Claim C10: in every sequential run from a fresh checker,
transactionsCount equals the number of admitted-and-successfully-executed
items and currentAmount equals the sum of their costs. -/
theorem sequential_exact_accounting (p : EnvParams) (txs : List Tx) :
    (runTxs (LimitChecker.new p) txs).transactions_count =
        (committedTxs (LimitChecker.new p) txs).length ∧
      (runTxs (LimitChecker.new p) txs).current_amount =
        sumAmounts (committedTxs (LimitChecker.new p) txs) := by
  have h := runTxs_accounting txs (LimitChecker.new p)
  simpa [LimitChecker.new] using h
